import Mathlib

/-
  Verification of the Malmo asynchronous logger (src/Malmo/src/Logger.h)
  against its natural-language specification.

  The C++ logger is shallowly embedded: the mutable fields of `class Logger`
  (severity_level, line_number, indentation, log_buffer) become an explicit
  `LoggerState` record threaded through the operations; the file sink becomes
  a `SinkWriter` record; the lock-sensitive control flow of the spooler and of
  the destructor is embedded as explicit event traces.
-/

namespace Malmo

/-- Severity levels, in C++ declaration order: `enum LoggingSeverityLevel` in
Logger.h yields LOG_OFF = 0, LOG_ERRORS = 1, LOG_WARNINGS = 2, LOG_INFO = 3,
LOG_FINE = 4, LOG_TRACE = 5, LOG_ALL = 6. -/
inductive LoggingSeverityLevel
  | LOG_OFF
  | LOG_ERRORS
  | LOG_WARNINGS
  | LOG_INFO
  | LOG_FINE
  | LOG_TRACE
  | LOG_ALL
  deriving DecidableEq, Repr

/-- Numeric value of each enumerator, as assigned by the C++ enum. -/
def levelNum : LoggingSeverityLevel → Nat
  | .LOG_OFF => 0
  | .LOG_ERRORS => 1
  | .LOG_WARNINGS => 2
  | .LOG_INFO => 3
  | .LOG_FINE => 4
  | .LOG_TRACE => 5
  | .LOG_ALL => 6

/-- The mutable state of `class Logger`: `severity_level` (the threshold,
default LOG_OFF), `line_number`, `indentation` (a C++ `int`, so modelled as
`Int`: `unindent` can drive it negative), and `log_buffer`
(`std::vector<std::string>`, front = oldest). -/
structure LoggerState where
  severity_level : LoggingSeverityLevel
  line_number : Int
  indentation : Int
  log_buffer : List String
  deriving DecidableEq, Repr

/-- State established by `Logger()`: `line_number(0), indentation(0)`, empty
buffer, `severity_level{ LOG_OFF }` (default member initialiser). -/
def initState : LoggerState :=
  { severity_level := .LOG_OFF, line_number := 0, indentation := 0, log_buffer := [] }

/-- The severity label emitted by the `switch (level)` in `Logger::print`:
LOG_ALL and LOG_ERRORS share "ERROR   ", and LOG_TRACE and LOG_OFF share
"TRACE   ". -/
def severityLabel : LoggingSeverityLevel → String
  | .LOG_ALL => "ERROR   "
  | .LOG_ERRORS => "ERROR   "
  | .LOG_WARNINGS => "WARNING "
  | .LOG_INFO => "INFO    "
  | .LOG_FINE => "FINE    "
  | .LOG_TRACE => "TRACE   "
  | .LOG_OFF => "TRACE   "

/-- Indentation prefix built by `for (int i = 0; i < indentation; i++)
message_stream << "    ";` — four spaces per level, nothing when the counter
is zero or negative. -/
def indentSpaces (n : Int) : String :=
  String.join (List.replicate n.toNat "    ")

/-- The full line assembled in `Logger::print`'s `message_stream` before
`print_impl` is called: timestamp, `" P "`, severity label, indent spaces,
then the concatenation of the argument values (modelled as one string `msg`,
exactly the text the variadic `print_impl` overloads stream in). -/
def formatLine (level : LoggingSeverityLevel) (ts msg : String) (ind : Int) : String :=
  ts ++ " P " ++ severityLabel level ++ indentSpaces ind ++ msg

/-- Base case of `Logger::print_impl`: takes the write_guard lock and does
`log_buffer.push_back(message_stream.str())` — the string is stored verbatim,
with no transformation. -/
def print_impl (message : String) (s : LoggerState) : LoggerState :=
  { s with log_buffer := s.log_buffer ++ [message] }

/-- `Logger::print<level>`: returns immediately when
`level > severity_level`; otherwise formats the line, buffers it via
`print_impl`, and increments `line_number`. `ts` stands for the
`boost::posix_time` timestamp taken at the call. -/
def print (level : LoggingSeverityLevel) (ts msg : String) (s : LoggerState) : LoggerState :=
  if levelNum s.severity_level < levelNum level then s
  else
    let s1 := print_impl (formatLine level ts msg s.indentation) s
    { s1 with line_number := s1.line_number + 1 }

/-- `Logger::setSeverityLevel`. -/
def setSeverityLevel (level : LoggingSeverityLevel) (s : LoggerState) : LoggerState :=
  { s with severity_level := level }

/-- `Logger::appendToLog`: dispatches on the runtime `severity_level`
argument through a `switch` whose cases are LOG_ERRORS..LOG_ALL; there is no
case (and no default) for LOG_OFF, so a LOG_OFF call falls through the switch
and does nothing. -/
def appendToLog (severity_level : LoggingSeverityLevel) (ts message : String)
    (s : LoggerState) : LoggerState :=
  match severity_level with
  | .LOG_ERRORS => print .LOG_ERRORS ts message s
  | .LOG_WARNINGS => print .LOG_WARNINGS ts message s
  | .LOG_INFO => print .LOG_INFO ts message s
  | .LOG_FINE => print .LOG_FINE ts message s
  | .LOG_TRACE => print .LOG_TRACE ts message s
  | .LOG_ALL => print .LOG_ALL ts message s
  | .LOG_OFF => s

/-- When the call level is at most the threshold, `print` takes the buffering
branch. -/
theorem print_of_le {level : LoggingSeverityLevel} (ts msg : String) {s : LoggerState}
    (h : levelNum level ≤ levelNum s.severity_level) :
    print level ts msg s =
      { s with
        log_buffer := s.log_buffer ++ [formatLine level ts msg s.indentation],
        line_number := s.line_number + 1 } := by
  unfold print print_impl
  rw [if_neg (Nat.not_lt.mpr h)]

/-- When the call level exceeds the threshold, `print` returns the state
unchanged. -/
theorem print_of_gt {level : LoggingSeverityLevel} (ts msg : String) {s : LoggerState}
    (h : levelNum s.severity_level < levelNum level) :
    print level ts msg s = s := by
  unfold print
  rw [if_pos h]

/-- C1: a print call at level L appends exactly one formatted line to the
buffer when levelNum L ≤ levelNum T (T the current threshold), and when
T < L it appends nothing and leaves the buffer unchanged (in fact the whole
state is unchanged). -/
theorem print_threshold_gate (level : LoggingSeverityLevel) (ts msg : String)
    (s : LoggerState) :
    (levelNum level ≤ levelNum s.severity_level →
      (print level ts msg s).log_buffer =
        s.log_buffer ++ [formatLine level ts msg s.indentation]) ∧
    (levelNum s.severity_level < levelNum level →
      print level ts msg s = s) := by
  constructor
  · intro h
    rw [print_of_le ts msg h]
  · intro h
    exact print_of_gt ts msg h

/-- C1 witness: LOG_INFO at threshold LOG_FINE is buffered; LOG_TRACE at
threshold LOG_INFO leaves the state unchanged. -/
theorem print_threshold_gate_witness :
    (print .LOG_INFO "t" "m" (setSeverityLevel .LOG_FINE initState)).log_buffer =
      (setSeverityLevel .LOG_FINE initState).log_buffer ++
        [formatLine .LOG_INFO "t" "m" (setSeverityLevel .LOG_FINE initState).indentation] ∧
    print .LOG_TRACE "t" "m" (setSeverityLevel .LOG_INFO initState) =
      setSeverityLevel .LOG_INFO initState :=
  ⟨(print_threshold_gate .LOG_INFO "t" "m" (setSeverityLevel .LOG_FINE initState)).1
      (by decide),
   (print_threshold_gate .LOG_TRACE "t" "m" (setSeverityLevel .LOG_INFO initState)).2
      (by decide)⟩

/-- C5 counterexample: with the threshold at LOG_OFF, a print call at level
LOG_OFF passes the gate (0 > 0 is false) and appends a line, so the buffer
does not stay unchanged for every level. -/
theorem print_off_at_off_appends :
    (print .LOG_OFF "ts" "m" initState).log_buffer = ["ts P TRACE   m"] ∧
    initState.log_buffer = [] ∧
    initState.severity_level = .LOG_OFF := by
  refine ⟨?_, rfl, rfl⟩
  decide

/-- C5 amended: with the threshold at LOG_OFF, every print call at a level
other than LOG_OFF leaves the logger state unchanged; only a direct
`print<LOG_OFF>` call (which no macro and no `appendToLog` path ever issues)
is still recorded. -/
theorem print_off_silences_nonoff (level : LoggingSeverityLevel) (ts msg : String)
    (s : LoggerState) (hs : s.severity_level = .LOG_OFF) (hl : level ≠ .LOG_OFF) :
    print level ts msg s = s := by
  apply print_of_gt
  rw [hs]
  cases level
  · exact absurd rfl hl
  all_goals simp [levelNum]

/-- C5 amended witness: LOG_TRACE at threshold LOG_OFF is a no-op on the
initial state. -/
theorem print_off_silences_nonoff_witness :
    print .LOG_TRACE "t" "m" initState = initState :=
  print_off_silences_nonoff .LOG_TRACE "t" "m" initState rfl (by decide)

/-- The transformation `performWrite` applies before output:
`str.erase(std::remove(str.begin(), str.end(), s), str.end())` with `s` the
newline character — every newline character in the string is removed. -/
def removeNewlines (s : String) : String :=
  String.mk (s.data.filter (fun c => c != '\n'))

/-- Whether a string contains a newline character. -/
def containsNewline (s : String) : Bool :=
  s.data.any (fun c => c == '\n')

/-- The text `Logger::performWrite` sends to its stream for one buffered
line: the line with its newlines removed, followed by `std::endl`. -/
def performWriteOutput (logline : String) : String :=
  removeNewlines logline ++ "\n"

/-- `Logger::clear_backlog`: performWrite each buffered item in order, then
clear the buffer. Returns the new state paired with the list of strings
written to the sink stream, in the order written. -/
def clear_backlog (s : LoggerState) : LoggerState × List String :=
  ({ s with log_buffer := [] }, s.log_buffer.map performWriteOutput)

theorem any_eq_of_filter_ne (l : List Char) :
    (l.filter (fun c => c != '\n')).any (fun c => c == '\n') = false := by
  rw [Bool.eq_false_iff]
  intro hany
  rcases List.any_eq_true.mp hany with ⟨c, hc, hcc⟩
  have hp := List.of_mem_filter hc
  simp only [bne_iff_ne, ne_eq] at hp
  simp only [beq_iff_eq] at hcc
  exact hp hcc

/-- C4 counterexample: a print call whose message contains an embedded
newline stores that newline in the buffer verbatim — `print_impl` performs
no stripping, so newline-freedom is not an invariant of the buffer. -/
theorem buffer_line_can_contain_newline :
    (print .LOG_ERRORS "ts" "a\nb" (setSeverityLevel .LOG_ALL initState)).log_buffer =
      ["ts P ERROR   a\nb"] ∧
    containsNewline "ts P ERROR   a\nb" = true := by
  constructor
  · decide
  · decide

/-- C4 amended: newlines are stripped at write time, not before storage:
`print_impl` buffers the formatted string verbatim, while `performWrite`
removes every newline from the line before sending it to the stream, so the
payload written ahead of the terminating newline is always newline-free. -/
theorem newlines_stripped_at_write (message : String) (s : LoggerState) :
    (print_impl message s).log_buffer = s.log_buffer ++ [message] ∧
    performWriteOutput message = removeNewlines message ++ "\n" ∧
    containsNewline (removeNewlines message) = false := by
  refine ⟨rfl, rfl, ?_⟩
  simp [containsNewline, removeNewlines, any_eq_of_filter_ne]

/-- C7 counterexample: draining a buffer holding a line with an embedded
newline writes a modified string, not the buffered line terminated by a
newline. -/
theorem drain_modifies_newline_line :
    (clear_backlog { initState with log_buffer := ["a\nb"] }).2 = ["ab\n"] ∧
    ("ab\n" : String) ≠ "a\nb" ++ "\n" := by
  constructor
  · decide
  · decide

/-- C7 amended: for every buffer, a drain writes, for every line currently
in the buffer and in exactly the order appended, that line with its embedded
newlines removed, terminated by a newline, and leaves the buffer empty; any
line containing no newline is written verbatim. -/
theorem clear_backlog_spec (s : LoggerState) :
    (clear_backlog s).2 = s.log_buffer.map (fun l => removeNewlines l ++ "\n") ∧
    (clear_backlog s).1.log_buffer = [] ∧
    (∀ l : String, containsNewline l = false → performWriteOutput l = l ++ "\n") := by
  refine ⟨rfl, rfl, ?_⟩
  intro l hl
  have hfree : l.data.filter (fun c => c != '\n') = l.data := by
    apply List.filter_eq_self.mpr
    intro c hc
    rw [Bool.eq_false_iff] at hl
    simp only [bne_iff_ne, ne_eq]
    intro hceq
    exact hl (List.any_eq_true.mpr ⟨c, hc, by simp [hceq]⟩)
  show removeNewlines l ++ "\n" = l ++ "\n"
  unfold removeNewlines
  rw [hfree]

/-- C7 amended witness: draining a buffer holding the newline-containing
line "a\nb" and the newline-free line "y" writes the stripped form of the
first and the verbatim form of the second, in order, and empties the
buffer. -/
theorem clear_backlog_spec_witness :
    (clear_backlog { initState with log_buffer := ["a\nb", "y"] }).2 =
      (["a\nb", "y"] : List String).map (fun l => removeNewlines l ++ "\n") ∧
    (clear_backlog { initState with log_buffer := ["a\nb", "y"] }).1.log_buffer = [] ∧
    containsNewline "y" = false ∧
    performWriteOutput "y" = "y" ++ "\n" :=
  ⟨(clear_backlog_spec { initState with log_buffer := ["a\nb", "y"] }).1,
   (clear_backlog_spec { initState with log_buffer := ["a\nb", "y"] }).2.1,
   by decide,
   (clear_backlog_spec { initState with log_buffer := ["a\nb", "y"] }).2.2 "y"
     (by decide)⟩

/-- The `std::ofstream writer` member: `openPath = some p` models an open
handle on path p (`writer.is_open()` true), `openPath = none` models no open
handle (console fallback). -/
structure SinkWriter where
  openPath : Option String
  deriving DecidableEq, Repr

/-- `writer.close()`. -/
def closeHandle (_ : SinkWriter) : SinkWriter :=
  { openPath := none }

/-- `writer.open(file, std::ofstream::out | std::ofstream::app)`: on success
the handle is open on `file`; on failure `ofstream::open` merely sets the
failbit (no exception by default), leaving the handle not open. `ok` is the
filesystem's answer to the open attempt. -/
def openAppend (w : SinkWriter) (file : String) (ok : Bool) : SinkWriter :=
  if ok then { openPath := some file } else w

/-- `Logger::setFilename`: `if (writer.is_open()) writer.close();` then
`writer.open(file, out | app)`. Returns only the new sink state — the C++
function is `void` and surfaces no error. -/
def setFilename (w : SinkWriter) (file : String) (ok : Bool) : SinkWriter :=
  let w1 := if w.openPath.isSome then closeHandle w else w
  openAppend w1 file ok

/-- Destination chosen by `Logger::performWrite`. -/
inductive WriteDest
  | file (path : String)
  | console
  deriving DecidableEq, Repr

/-- The branch of `performWrite`: `if (writer.is_open()) writer << ... else
std::cout << ...`. -/
def performWriteDest (w : SinkWriter) : WriteDest :=
  match w.openPath with
  | some p => WriteDest.file p
  | none => WriteDest.console

/-- C9: `setFilename` first closes any previously open handle (it factors
through `closeHandle`, so the old handle never survives), then attempts an
append-mode open of the new path; on failure the function still returns
normally (it is total, surfacing no error) and every subsequent
`performWrite` targets the console fallback. -/
theorem setFilename_spec (w : SinkWriter) (file : String) (ok : Bool) :
    setFilename w file ok = openAppend (closeHandle w) file ok ∧
    (setFilename w file ok).openPath = (if ok then some file else none) ∧
    (ok = false → performWriteDest (setFilename w file ok) = WriteDest.console) := by
  obtain ⟨p⟩ := w
  cases p with
  | none =>
    cases ok with
    | false => exact ⟨rfl, rfl, fun _ => rfl⟩
    | true => exact ⟨rfl, rfl, fun hc => absurd hc (by simp)⟩
  | some q =>
    cases ok with
    | false => exact ⟨rfl, rfl, fun _ => rfl⟩
    | true => exact ⟨rfl, rfl, fun hc => absurd hc (by simp)⟩

/-- C9 witness: retargeting a sink that is open on "old.log" to an
unwritable path closes the old handle and sends subsequent writes to the
console. -/
theorem setFilename_spec_witness :
    setFilename ⟨some "old.log"⟩ "bad/path.log" false =
      openAppend (closeHandle ⟨some "old.log"⟩) "bad/path.log" false ∧
    (setFilename ⟨some "old.log"⟩ "bad/path.log" false).openPath =
      (if false then some "bad/path.log" else none) ∧
    performWriteDest (setFilename ⟨some "old.log"⟩ "bad/path.log" false) =
      WriteDest.console :=
  ⟨(setFilename_spec ⟨some "old.log"⟩ "bad/path.log" false).1,
   (setFilename_spec ⟨some "old.log"⟩ "bad/path.log" false).2.1,
   (setFilename_spec ⟨some "old.log"⟩ "bad/path.log" false).2.2 rfl⟩

/-- An observable event of one spooler loop iteration: acquiring or
releasing `write_guard` via `writing_lock`, or sending one line's output to
the sink stream inside `performWrite`. -/
inductive SpoolEvent
  | lockAcquire
  | lockRelease
  | sinkWrite (out : String)
  deriving DecidableEq, Repr

/-- The event trace of one iteration of the loop body in
`Logger::log_spooler` (the 100 ms sleep omitted): when `log_buffer` is
nonempty it runs `writing_lock.lock(); clear_backlog(); ` and then
`writing_lock.unlock()` — and `clear_backlog` calls `performWrite` on every
buffered item before the unlock. -/
def spoolIterationTrace (buffer : List String) : List SpoolEvent :=
  if buffer.isEmpty then []
  else
    SpoolEvent.lockAcquire ::
      (buffer.map (fun l => SpoolEvent.sinkWrite (performWriteOutput l)) ++
        [SpoolEvent.lockRelease])

/-- Step function folding a trace: the second component tracks whether the
lock is currently held, the first latches to true as soon as a sink write
happens while the lock is held. -/
def spoolStep (acc : Bool × Bool) (e : SpoolEvent) : Bool × Bool :=
  match e with
  | SpoolEvent.lockAcquire => (acc.1, true)
  | SpoolEvent.lockRelease => (acc.1, false)
  | SpoolEvent.sinkWrite _ => (acc.1 || acc.2, acc.2)

/-- Whether some sink write in the trace happens while the lock is held. -/
def writesUnderLock (tr : List SpoolEvent) : Bool :=
  (tr.foldl spoolStep (false, false)).1

theorem spoolStep_fold_latched (tr : List SpoolEvent) :
    ∀ b : Bool, (tr.foldl spoolStep (true, b)).1 = true := by
  induction tr with
  | nil => intro b; rfl
  | cons e es ih =>
    intro b
    cases e with
    | lockAcquire => exact ih true
    | lockRelease => exact ih false
    | sinkWrite out =>
      show (es.foldl spoolStep (true || b, b)).1 = true
      rw [Bool.true_or]
      exact ih b

/-- C3 counterexample: on a one-line buffer, the spool iteration performs
its sink write while holding the lock — the write is not deferred until
after the release. -/
theorem spool_writes_while_locked :
    writesUnderLock (spoolIterationTrace ["x"]) = true ∧
    spoolIterationTrace ["x"] =
      [SpoolEvent.lockAcquire, SpoolEvent.sinkWrite "x\n", SpoolEvent.lockRelease] := by
  constructor
  · decide
  · decide

/-- C3 amended: in every spool iteration on a nonempty buffer, the spooler
acquires the lock, writes every drained line through the sink writer while
still holding the lock, and only then releases it — slow sink output
therefore happens inside the critical section, not outside it. -/
theorem spool_iteration_locks_around_writes (buffer : List String)
    (h : buffer ≠ []) :
    spoolIterationTrace buffer =
      SpoolEvent.lockAcquire ::
        (buffer.map (fun l => SpoolEvent.sinkWrite (performWriteOutput l)) ++
          [SpoolEvent.lockRelease]) ∧
    writesUnderLock (spoolIterationTrace buffer) = true := by
  have hne : buffer.isEmpty = false := by
    cases buffer with
    | nil => exact absurd rfl h
    | cons l ls => rfl
  constructor
  · unfold spoolIterationTrace
    rw [hne]
    simp
  · unfold writesUnderLock spoolIterationTrace
    rw [hne]
    simp only [Bool.false_eq_true, if_false, List.foldl_cons]
    show ((buffer.map (fun l => SpoolEvent.sinkWrite (performWriteOutput l)) ++
        [SpoolEvent.lockRelease]).foldl spoolStep (false, true)).1 = true
    cases buffer with
    | nil => exact absurd rfl h
    | cons l ls =>
      simp only [List.map_cons, List.cons_append, List.foldl_cons]
      show (((ls.map (fun l => SpoolEvent.sinkWrite (performWriteOutput l)) ++
          [SpoolEvent.lockRelease])).foldl spoolStep (false || true, true)).1 = true
      rw [Bool.false_or]
      exact spoolStep_fold_latched _ true

/-- C3 amended witness: concrete two-line buffer. -/
theorem spool_iteration_locks_around_writes_witness :
    spoolIterationTrace ["a", "b"] =
      SpoolEvent.lockAcquire ::
        ((["a", "b"] : List String).map
            (fun l => SpoolEvent.sinkWrite (performWriteOutput l)) ++
          [SpoolEvent.lockRelease]) ∧
    writesUnderLock (spoolIterationTrace ["a", "b"]) = true :=
  spool_iteration_locks_around_writes ["a", "b"] (by decide)

/-- An observable action of `Logger::~Logger`, in program order.
`timedLockAttempt` stands for a bounded (`try_lock_for`-style) acquisition
of `write_guard`; it is a possible action of the modelled vocabulary but the
destructor's code never performs one — the comment above `clear_backlog()`
says explicitly not to acquire the lock there. -/
inductive DtorAction
  | setSeverity (level : LoggingSeverityLevel)
  | clearSpoolingFlag
  | waitForBackendLoop
  | timedLockAttempt
  | flushBacklog
  | detachThread
  | closeWriter
  deriving DecidableEq, Repr

/-- The action sequence of `Logger::~Logger`: set `severity_level = LOG_OFF`,
clear `is_spooling`, spin on `has_backend` with a time bound, call
`clear_backlog()` (with no lock), detach the backend thread, close the
writer if open. -/
def loggerDtorTrace : List DtorAction :=
  [DtorAction.setSeverity .LOG_OFF,
   DtorAction.clearSpoolingFlag,
   DtorAction.waitForBackendLoop,
   DtorAction.flushBacklog,
   DtorAction.detachThread,
   DtorAction.closeWriter]

/-- C6 counterexample: the destructor's trace contains a flush of the
backlog but no lock acquisition attempt at all, timed or otherwise — so the
final flush is not guarded by a timed acquisition that falls back on
timeout. -/
theorem dtor_flush_never_tries_lock :
    DtorAction.timedLockAttempt ∉ loggerDtorTrace ∧
    DtorAction.flushBacklog ∈ loggerDtorTrace := by
  constructor
  · decide
  · decide

/-- C6 amended: the teardown flush proceeds without the lock
unconditionally: the destructor performs exactly its fixed action sequence,
in which `clear_backlog` runs with no preceding lock acquisition of any
kind. -/
theorem dtor_trace_fixed :
    loggerDtorTrace =
      [DtorAction.setSeverity .LOG_OFF, DtorAction.clearSpoolingFlag,
       DtorAction.waitForBackendLoop, DtorAction.flushBacklog,
       DtorAction.detachThread, DtorAction.closeWriter] ∧
    ∀ a ∈ loggerDtorTrace, a ≠ DtorAction.timedLockAttempt := by
  constructor
  · rfl
  · decide

/-- Tick resolution of `std::chrono::system_clock`: one nanosecond per tick
under libstdc++/libc++ (100 ns under MSVC — sub-microsecond either way). -/
def systemClockTicksPerSecond : Nat := 1000000000

/-- The destructor's wait-loop condition
`this->has_backend && (std::chrono::system_clock::now() - start).count() < 2.0`:
`count()` yields the RAW TICK COUNT of the `system_clock::duration`, and it
is that tick count which is compared against 2.0. -/
def dtorKeepWaiting (has_backend : Bool) (elapsedTicks : Nat) : Bool :=
  has_backend && decide (elapsedTicks < 2)

/-- C2: the wait loop's bound is 2 clock ticks, not 2 seconds: the loop has
already stopped waiting once 2 ticks (two nanoseconds) have elapsed, and in
particular at one full second of elapsed time — far inside the claimed
roughly-two-second window — it no longer waits for the worker even though
the worker has not acknowledged. -/
theorem dtor_wait_bound_is_two_ticks :
    dtorKeepWaiting true 2 = false ∧
    dtorKeepWaiting true (1 * systemClockTicksPerSecond) = false ∧
    2 < 2 * systemClockTicksPerSecond ∧
    dtorKeepWaiting true 1 = true := by
  refine ⟨rfl, ?_, by norm_num [systemClockTicksPerSecond], rfl⟩
  simp [dtorKeepWaiting, systemClockTicksPerSecond]

/-- `Logger::indent`: takes the lock and does `indentation++`. -/
def indent (s : LoggerState) : LoggerState :=
  { s with indentation := s.indentation + 1 }

/-- `Logger::unindent`: takes the lock and does `indentation--`. -/
def unindent (s : LoggerState) : LoggerState :=
  { s with indentation := s.indentation - 1 }

/-- `LogSection<level>::LogSection(title)`: `print<level>(title)`, then
`print<level>("\x7b")`, then `indent()`. -/
def enterSection (level : LoggingSeverityLevel) (ts title : String)
    (s : LoggerState) : LoggerState :=
  indent (print level ts "\x7b" (print level ts title s))

/-- `LogSection<level>::~LogSection()`: `unindent()`, then
`print<level>("\x7d")`. -/
def exitSection (level : LoggingSeverityLevel) (ts : String)
    (s : LoggerState) : LoggerState :=
  print level ts "\x7d" (unindent s)

/-- The nested-sections scenario of the claim: enter section tX, log ta
inside it, enter section tY, log tb inside it, then exit both sections. -/
def nestedSectionsDemo (level : LoggingSeverityLevel) (ts tX tY ta tb : String)
    (s : LoggerState) : LoggerState :=
  exitSection level ts
    (exitSection level ts
      (print level ts tb
        (enterSection level ts tY
          (print level ts ta
            (enterSection level ts tX s)))))

/-- C8: enterSection logs the title and an opening marker and then
increments the indentation depth by exactly one; exitSection decrements the
depth by exactly one and then logs a closing marker; an enterSection
followed by its matching exitSection restores any starting depth; and two
enters followed by two exits from depth 0 end at depth 0 with the inner
section's lines (tY, tb) indented exactly one level deeper than the outer
section's (tX, ta). -/
theorem logsection_nesting (level lvl : LoggingSeverityLevel)
    (ts tX tY ta tb : String) (ln : Int) (buf : List String) (s : LoggerState)
    (h : levelNum level ≤ levelNum lvl) :
    (enterSection level ts tX s).indentation = s.indentation + 1 ∧
    (exitSection level ts s).indentation = s.indentation - 1 ∧
    (exitSection level ts (enterSection level ts tX s)).indentation = s.indentation ∧
    (nestedSectionsDemo level ts tX tY ta tb
        ⟨lvl, ln, 0, buf⟩).indentation = 0 ∧
    (nestedSectionsDemo level ts tX tY ta tb
        ⟨lvl, ln, 0, buf⟩).log_buffer =
      buf ++
        [formatLine level ts tX 0, formatLine level ts "\x7b" 0,
         formatLine level ts ta 1, formatLine level ts tY 1,
         formatLine level ts "\x7b" 1, formatLine level ts tb 2,
         formatLine level ts "\x7d" 1, formatLine level ts "\x7d" 0] := by
  have hgate : (levelNum lvl < levelNum level) = False :=
    eq_false (Nat.not_lt.mpr h)
  have hind : ∀ (l : LoggingSeverityLevel) (t m : String) (st : LoggerState),
      (print l t m st).indentation = st.indentation := by
    intro l t m st
    unfold print print_impl
    by_cases hc : levelNum st.severity_level < levelNum l
    · rw [if_pos hc]
    · rw [if_neg hc]
  refine ⟨?_, ?_, ?_, ?_, ?_⟩
  · show (indent (print level ts "\x7b" (print level ts tX s))).indentation = _
    unfold indent
    rw [hind, hind]
  · show (print level ts "\x7d" (unindent s)).indentation = _
    rw [hind]
    rfl
  · show (print level ts "\x7d"
        (unindent (indent (print level ts "\x7b" (print level ts tX s))))).indentation = _
    rw [hind]
    simp [unindent, indent, hind]
  · norm_num [nestedSectionsDemo, enterSection, exitSection, indent, unindent,
      print, print_impl, hgate]
  · norm_num [nestedSectionsDemo, enterSection, exitSection, indent, unindent,
      print, print_impl, hgate]

/-- C8 witness: the nested scenario at level LOG_INFO under threshold
LOG_ALL, starting from depth 0 with an empty buffer. -/
theorem logsection_nesting_witness :
    (enterSection .LOG_INFO "t" "X" initState).indentation =
      initState.indentation + 1 ∧
    (exitSection .LOG_INFO "t" initState).indentation =
      initState.indentation - 1 ∧
    (exitSection .LOG_INFO "t"
        (enterSection .LOG_INFO "t" "X" initState)).indentation =
      initState.indentation ∧
    (nestedSectionsDemo .LOG_INFO "t" "X" "Y" "a" "b"
        ⟨.LOG_ALL, 0, 0, []⟩).indentation = 0 ∧
    (nestedSectionsDemo .LOG_INFO "t" "X" "Y" "a" "b"
        ⟨.LOG_ALL, 0, 0, []⟩).log_buffer =
      [] ++
        [formatLine .LOG_INFO "t" "X" 0, formatLine .LOG_INFO "t" "\x7b" 0,
         formatLine .LOG_INFO "t" "a" 1, formatLine .LOG_INFO "t" "Y" 1,
         formatLine .LOG_INFO "t" "\x7b" 1, formatLine .LOG_INFO "t" "b" 2,
         formatLine .LOG_INFO "t" "\x7d" 1, formatLine .LOG_INFO "t" "\x7d" 0] :=
  logsection_nesting .LOG_INFO .LOG_ALL "t" "X" "Y" "a" "b" 0 [] initState
    (by decide)

/-- C10: `appendToLog` at LOG_OFF is a no-op for every message and every
state (hence every threshold), because the switch has no LOG_OFF case — even
though LOG_OFF is numerically ≤ every threshold. -/
theorem appendToLog_off_noop (ts message : String) (s : LoggerState) :
    appendToLog .LOG_OFF ts message s = s ∧
    ∀ l : LoggingSeverityLevel, levelNum .LOG_OFF ≤ levelNum l := by
  refine ⟨rfl, ?_⟩
  intro l
  exact Nat.zero_le _

end Malmo
